import Mathlib

/-!
Shallow embedding of the `zwo_asi` camera control layer (C++ sources:
`camera.cpp`, `roi.cpp`, `roi_exception.cpp`, `camera_info.cpp`,
`camera_exception.cpp`, `controllable_exception.cpp` and the headers under
`include/zwo_asi/`).

The external ASI SDK ("driver") is modelled as a record of response
functions; every driver entry point invoked by the embedded code is also
recorded in an explicit call trace (`List DriverCall`), so that claims of
the form "no driver call is issued" are statable.  C++ exceptions are
modelled with `Except`; C++ `int`/`long` are modelled as `Int` (the checks
of interest, `m % n == 0`, agree between C++ truncated division and Lean's
`Int.emod` for every positive modulus `n`).
-/

namespace ZwoAsi

/-- `zwo_asi::ImageType` (image_type.hpp). -/
inductive ImageType
  | raw8
  | rgb24
  | raw16
  | y8
deriving DecidableEq, Repr

/-- `zwo_asi::BayerPattern` (bayer_pattern.hpp). -/
inductive BayerPattern
  | none
  | RG
  | BG
  | GR
  | GB
deriving DecidableEq, Repr

/-- `ASI_EXPOSURE_STATUS` of the vendor SDK: the four exposure states
sampled by `ASIGetExpStatus`. -/
inductive ExpStatus
  | idle
  | working
  | success
  | failed
deriving DecidableEq, Repr

/-- The non-success values of the vendor SDK's `ASI_ERROR_CODE` enum
(`ASI_SUCCESS` is represented by `Except.ok`). -/
inductive AsiError
  | invalidIndex
  | invalidId
  | invalidControlType
  | cameraClosed
  | cameraRemoved
  | invalidPath
  | invalidFileformat
  | invalidSize
  | invalidImgtype
  | outofBoundary
  | timeout
  | invalidSequence
  | bufferTooSmall
  | videoModeActive
  | exposureInProgress
  | generalError
deriving DecidableEq, Repr

/-- The numeric value of each `ASI_ERROR_CODE` enumerator
(`ASI_SUCCESS = 0`, then in declaration order). -/
def AsiError.code : AsiError → Int
  | .invalidIndex => 1
  | .invalidId => 2
  | .invalidControlType => 3
  | .cameraClosed => 4
  | .cameraRemoved => 5
  | .invalidPath => 6
  | .invalidFileformat => 7
  | .invalidSize => 8
  | .invalidImgtype => 9
  | .outofBoundary => 10
  | .timeout => 11
  | .invalidSequence => 12
  | .bufferTooSmall => 13
  | .videoModeActive => 14
  | .exposureInProgress => 15
  | .generalError => 16

/-- `zwo_asi::CameraInfo` (camera_info.hpp).  The two `std::set` members are
modelled as lists in insertion order; only membership is ever consulted. -/
structure CameraInfo where
  name : String
  camera_id : Int
  max_height : Int
  max_width : Int
  is_color : Bool
  bayer : BayerPattern
  supported_bins : List Int
  supported_image_types : List ImageType
  pixel_size_um : Float
  mechanical_shutter : Bool
  st4_port : Bool
  has_cooler : Bool
  is_usb3_host : Bool
  is_usb3 : Bool
  elec_per_adu : Float
  bit_depth : Int
  is_trigger : Bool

/-- `zwo_asi::ROI` (roi.hpp). -/
structure ROI where
  start_x : Int
  start_y : Int
  width : Int
  height : Int
  bins : Int
  type : ImageType
deriving DecidableEq, Repr

/-- `ROI::ROI()` (roi.cpp): zero/default construction. -/
def ROI.init : ROI :=
  { start_x := 0, start_y := 0, width := 0, height := 0, bins := 0,
    type := ImageType.y8 }

/-- The four constructors of `zwo_asi::ROIException` (roi_exception.cpp),
one per rejection kind of `ROI::valid`. -/
inductive RoiError
  | widthNotMultipleOf8 (width : Int)
  | heightNotMultipleOf2 (height : Int)
  | areaNotMultipleOf1024 (width height : Int) (camera_description : String)
  | unsupportedBin (bins : Int)
  | unsupportedImageType (t : ImageType)
deriving DecidableEq, Repr

/-- `ROI::valid(const CameraInfo&)` (roi.cpp): the sequence of `throw`ing
checks becomes a chain of `if`s returning the first violation. -/
def ROI.valid (roi : ROI) (info : CameraInfo) : Except RoiError Unit :=
  if roi.width % 8 ≠ 0 then
    .error (.widthNotMultipleOf8 roi.width)
  else if roi.height % 2 ≠ 0 then
    .error (.heightNotMultipleOf2 roi.height)
  else if info.name = "ASI120" ∧ info.is_usb3 = false ∧
      roi.width * roi.height % 1024 ≠ 0 then
    .error (.areaNotMultipleOf1024 roi.width roi.height "ASI120")
  else if ¬ roi.bins ∈ info.supported_bins then
    .error (.unsupportedBin roi.bins)
  else if ¬ roi.type ∈ info.supported_image_types then
    .error (.unsupportedImageType roi.type)
  else
    .ok ()

/-- The raw `ASI_BAYER_PATTERN` enum of the vendor SDK (four values). -/
inductive AsiBayer
  | RG
  | BG
  | GR
  | GB
deriving DecidableEq, Repr

/-- Entries of `ASI_CAMERA_INFO::SupportedVideoFormat`: the image types plus
the `ASI_IMG_END` terminator sentinel. -/
inductive AsiImgType
  | raw8
  | rgb24
  | raw16
  | y8
  | END
deriving DecidableEq, Repr

/-- The fields of the vendor SDK's `ASI_CAMERA_INFO` struct that
`get_camera_info` reads (camera_info.cpp).  The two fixed-size arrays
(16 ints / 8 image types) are modelled as lists. -/
structure AsiCameraInfo where
  Name : String
  CameraID : Int
  MaxHeight : Int
  MaxWidth : Int
  IsColorCam : Bool
  BayerPattern : AsiBayer
  SupportedBins : List Int
  SupportedVideoFormat : List AsiImgType
  PixelSize : Float
  MechanicalShutter : Bool
  ST4Port : Bool
  IsCoolerCam : Bool
  IsUSB3Host : Bool
  IsUSB3Camera : Bool
  ElecPerADU : Float
  BitDepth : Int
  IsTriggerCam : Bool

/-- The error values the embedded layer can surface, mirroring the exception
classes thrown by the source:
`CameraException(message, camera_index, error_code)` (camera_exception.hpp),
the boolean constructor of `ControllableException`
(controllable_exception.hpp), plain `std::runtime_error`, and
`ROIException`. -/
inductive CamErr
  | cameraException (error_message : String) (camera_index : Int)
      (error_code : AsiError)
  | controllableException (controllable : String)
      (no_such_control not_writable no_set_auto : Bool)
  | runtimeError (message : String)
  | roiException (e : RoiError)
deriving DecidableEq, Repr

/-- The `switch (cam_info.BayerPattern)` of `get_camera_info`
(camera_info.cpp): total over the four SDK values. -/
def bayerOfAsi : AsiBayer → BayerPattern
  | .RG => .RG
  | .BG => .BG
  | .GR => .GR
  | .GB => .GB

/-- The `switch (cam_info.SupportedVideoFormat[i])` of `get_camera_info`:
the four convertible image types; the `ASI_IMG_END` sentinel terminates the
loop before conversion, so it maps to `none`. -/
def imageTypeOfAsi : AsiImgType → Option ImageType
  | .raw8 => some .raw8
  | .rgb24 => some .rgb24
  | .raw16 => some .raw16
  | .y8 => some .y8
  | .END => none

/-- `get_camera_info(int)` (camera_info.cpp).  The driver response to
`ASIGetCameraProperty` is passed in as `property` (the preceding
`ASIGetNumOfConnectedCameras()` warm-up call has no modelled effect).  The
bin loop runs over at most 16 entries and stops at the `0` sentinel; the
video-format loop runs over at most 8 entries and stops at `ASI_IMG_END`. -/
def get_camera_info (camera_index : Int)
    (property : Except AsiError AsiCameraInfo) : Except CamErr CameraInfo :=
  match property with
  | .error e =>
      .error (.cameraException "failed to read camera infos" camera_index e)
  | .ok cam_info =>
      .ok
        { name := cam_info.Name
          camera_id := cam_info.CameraID
          max_height := cam_info.MaxHeight
          max_width := cam_info.MaxWidth
          is_color := cam_info.IsCoolerCam
          bayer := bayerOfAsi cam_info.BayerPattern
          supported_bins :=
            (cam_info.SupportedBins.take 16).takeWhile (fun b => b ≠ 0)
          supported_image_types :=
            ((cam_info.SupportedVideoFormat.take 8).takeWhile
              (fun t => t ≠ AsiImgType.END)).filterMap imageTypeOfAsi
          pixel_size_um := cam_info.PixelSize
          mechanical_shutter := cam_info.MechanicalShutter
          st4_port := cam_info.ST4Port
          has_cooler := cam_info.IsCoolerCam
          is_usb3_host := cam_info.IsUSB3Host
          is_usb3 := cam_info.IsUSB3Camera
          elec_per_adu := cam_info.ElecPerADU
          bit_depth := cam_info.BitDepth
          is_trigger := cam_info.IsTriggerCam }

/-- The fields of the vendor SDK's `ASI_CONTROL_CAPS` struct used by the
source (`camera.cpp`); `ControlType` is kept as its numeric enum value.
`DefaultValue` is provided by the SDK struct but is never read by the
source. -/
structure ControlCaps where
  Name : String
  MaxValue : Int
  MinValue : Int
  DefaultValue : Int
  IsAutoSupported : Bool
  IsWritable : Bool
  ControlType : Int
deriving DecidableEq, Repr

/-- `zwo_asi::Controllable` (controllable.hpp). -/
structure Controllable where
  name : String
  min_value : Int
  max_value : Int
  default_value : Int
  value : Int
  is_writable : Bool
  is_auto : Bool
  supports_auto : Bool
deriving DecidableEq, Repr

/-- One call into the ASI driver, as issued by the embedded `Camera`
methods; traces of these record every device round trip. -/
inductive DriverCall
  | getControlValue (control_type : Int)
  | setControlValue (control_type : Int) (value : Int) (auto_flag : Bool)
  | setROIFormat (width height bins : Int) (t : ImageType)
  | setStartPos (start_x start_y : Int)
  | getExpStatus
  | startExposure (is_dark : Bool)
  | getDataAfterExp (image_size : Int)
deriving DecidableEq, Repr

/-- Driver responses for the controllable entry points: what
`ASIGetControlValue` reports (value, auto flag) and how
`ASISetControlValue` answers. -/
structure ControlDriver where
  getControlValue : Int → Except AsiError (Int × Bool)
  setControlValue : Int → Int → Bool → Except AsiError Unit

/-- The state of an open `zwo_asi::Camera` (camera.hpp): its capability
catalog, device index, and the control-caps map discovered at construction
(`std::map` keyed by name, modelled as an association list). -/
structure Camera where
  camera_info : CameraInfo
  camera_index : Int
  controls : List (String × ControlCaps)

/-- `Camera::get_control_caps` (camera.cpp): map lookup, throwing the
`no_such_control` variant of `ControllableException` when absent. -/
def Camera.get_control_caps (cam : Camera) (control : String) :
    Except CamErr ControlCaps :=
  match cam.controls.lookup control with
  | none => .error (.controllableException control true false false)
  | some caps => .ok caps

/-- `Camera::get_controllable` (camera.cpp): one `ASIGetControlValue` round
trip, then the `Controllable` is filled from the caps.  The source never
assigns `r.default_value`; the member's indeterminate initial content is
made explicit as the `junk` argument. -/
def Camera.get_controllable (cam : Camera) (drv : ControlDriver) (junk : Int)
    (cap : ControlCaps) : Except CamErr Controllable × List DriverCall :=
  match drv.getControlValue cap.ControlType with
  | .error e =>
      (.error (.cameraException
          ("failed to read values for parameter " ++ cap.Name)
          cam.camera_index e),
        [.getControlValue cap.ControlType])
  | .ok (v, is_auto_) =>
      (.ok
          { name := cap.Name
            value := v
            is_auto := is_auto_
            min_value := cap.MinValue
            max_value := cap.MaxValue
            supports_auto := cap.IsAutoSupported
            is_writable := cap.IsWritable
            default_value := junk },
        [.getControlValue cap.ControlType])

/-- The iteration of `Camera::get_controls` (camera.cpp) over the
control-caps map entries, reading each via `get_controllable`; the first
failure propagates. -/
def Camera.get_controls_from (cam : Camera) (drv : ControlDriver)
    (junk : Int) :
    List (String × ControlCaps) →
      Except CamErr (List (String × Controllable)) × List DriverCall
  | [] => (.ok [], [])
  | (n, caps) :: rest =>
      match cam.get_controllable drv junk caps with
      | (.error e, t) => (.error e, t)
      | (.ok c, t) =>
          match Camera.get_controls_from cam drv junk rest with
          | (.error e, t2) => (.error e, t ++ t2)
          | (.ok l, t2) => (.ok ((n, c) :: l), t ++ t2)

/-- `Camera::get_controls()` (camera.cpp): the bulk read (`read_all` in the
spec's vocabulary) over the camera's own control-caps map. -/
def Camera.get_controls (cam : Camera) (drv : ControlDriver) (junk : Int) :
    Except CamErr (List (String × Controllable)) × List DriverCall :=
  cam.get_controls_from drv junk cam.controls

/-- `Camera::set_control(control, value)` (camera.cpp): caps lookup, then an
(unused) `get_controllable` read, then `ASISetControlValue` with the auto
flag off — issued unconditionally, with no `IsWritable` check. -/
def Camera.set_control (cam : Camera) (drv : ControlDriver) (junk : Int)
    (control : String) (value : Int) :
    Except CamErr Unit × List DriverCall :=
  match cam.get_control_caps control with
  | .error e => (.error e, [])
  | .ok caps =>
      match cam.get_controllable drv junk caps with
      | (.error e, t) => (.error e, t)
      | (.ok _controllable, t) =>
          match drv.setControlValue caps.ControlType value false with
          | .error e =>
              (.error (.cameraException
                  ("failed to set values for controllable: " ++ control)
                  cam.camera_index e),
                t ++ [.setControlValue caps.ControlType value false])
          | .ok () =>
              (.ok (), t ++ [.setControlValue caps.ControlType value false])

/-- `Camera::set_auto(control)` (camera.cpp): caps lookup, a
`get_controllable` read, the `supports_auto` check (throwing the
`no_set_auto` variant of `ControllableException`), and on success an
`ASISetControlValue` of the just-read value with the auto flag on. -/
def Camera.set_auto (cam : Camera) (drv : ControlDriver) (junk : Int)
    (control : String) : Except CamErr Unit × List DriverCall :=
  match cam.get_control_caps control with
  | .error e => (.error e, [])
  | .ok caps =>
      match cam.get_controllable drv junk caps with
      | (.error e, t) => (.error e, t)
      | (.ok controllable, t) =>
          if ¬ controllable.supports_auto then
            (.error (.controllableException control false false true), t)
          else
            match drv.setControlValue caps.ControlType controllable.value
                true with
            | .error e =>
                (.error (.cameraException
                    ("failed to set auto-mode for controllable: " ++ control)
                    cam.camera_index e),
                  t ++ [.setControlValue caps.ControlType controllable.value
                          true])
            | .ok () =>
                (.ok (),
                  t ++ [.setControlValue caps.ControlType controllable.value
                          true])

/-- Driver responses for the ROI entry points: `ASISetROIFormat` and
`ASISetStartPos`. -/
structure RoiDriver where
  setROIFormat : Int → Int → Int → ImageType → Except AsiError Unit
  setStartPos : Int → Int → Except AsiError Unit

/-- `Camera::set_roi(const ROI&)` (camera.cpp): `roi.valid(camera_info_)`
first (its exception propagates), then `ASISetROIFormat`, then
`ASISetStartPos`, each failure wrapped in a `CameraException`. -/
def Camera.set_roi (cam : Camera) (drv : RoiDriver) (roi : ROI) :
    Except CamErr Unit × List DriverCall :=
  match roi.valid cam.camera_info with
  | .error e => (.error (.roiException e), [])
  | .ok () =>
      match drv.setROIFormat roi.width roi.height roi.bins roi.type with
      | .error e =>
          (.error (.cameraException "failed to set the ROI" cam.camera_index
              e),
            [.setROIFormat roi.width roi.height roi.bins roi.type])
      | .ok () =>
          match drv.setStartPos roi.start_x roi.start_y with
          | .error e =>
              (.error (.cameraException
                  "failed to set the ROI starting position" cam.camera_index
                  e),
                [.setROIFormat roi.width roi.height roi.bins roi.type,
                 .setStartPos roi.start_x roi.start_y])
          | .ok () =>
              (.ok (),
                [.setROIFormat roi.width roi.height roi.bins roi.type,
                 .setStartPos roi.start_x roi.start_y])

/-- Driver responses for the exposure entry points: the stream of successive
`ASIGetExpStatus` answers, and the answers of `ASIStartExposure` and
`ASIGetDataAfterExp`. -/
structure ExposureDriver where
  statuses : List (Except AsiError ExpStatus)
  startExposure : Except AsiError Unit
  getDataAfterExp : Except AsiError Unit

/-- `Camera::check_camera_ready` (camera.cpp): one
`get_exposition_status` poll; a non-`Idle` status raises the
`std::runtime_error` "could not take a picture: camera busy".  The result
pairs the outcome (with the remaining status stream) with the call trace;
`none` marks an exhausted status stream, a model artifact that cannot arise
from a real driver. -/
def Camera.check_camera_ready (cam : Camera) :
    List (Except AsiError ExpStatus) →
      Option (Except CamErr Unit × List (Except AsiError ExpStatus)) ×
        List DriverCall
  | [] => (none, [])
  | s :: rest =>
      match s with
      | .error e =>
          (some (.error (.cameraException "failed to read the exposure status"
              cam.camera_index e), rest),
            [.getExpStatus])
      | .ok st =>
          if st ≠ ExpStatus.idle then
            (some (.error (.runtimeError
                "could not take a picture: camera busy"), rest),
              [.getExpStatus])
          else
            (some (.ok (), rest), [.getExpStatus])

/-- `Camera::wait_for_status_change(current_status)` (camera.cpp): poll
`get_exposition_status` until it differs from `current_status` (the
`usleep(500)` between polls has no modelled effect).  `none` marks an
exhausted status stream: the source loop would keep polling forever. -/
def Camera.wait_for_status_change (cam : Camera) (current_status : ExpStatus) :
    List (Except AsiError ExpStatus) →
      Option (Except CamErr ExpStatus × List (Except AsiError ExpStatus)) ×
        List DriverCall
  | [] => (none, [])
  | s :: rest =>
      match s with
      | .error e =>
          (some (.error (.cameraException "failed to read the exposure status"
              cam.camera_index e), rest),
            [.getExpStatus])
      | .ok st =>
          if st = current_status then
            match Camera.wait_for_status_change cam current_status rest with
            | (r, t) => (r, DriverCall.getExpStatus :: t)
          else
            (some (.ok st, rest), [.getExpStatus])

/-- `Camera::capture(buffer, image_size)` (camera.cpp): ready check, then
`ASIStartExposure(..., ASI_FALSE)`, then wait to leave `Idle`, wait to leave
`Working`, and branch: `ASI_EXP_FAILED` raises the `std::runtime_error`
"failed to get exposure" without touching `ASIGetDataAfterExp`; any other
status issues `ASIGetDataAfterExp` with the caller's buffer size.  The
caller-owned buffer itself is outside the model; a `some (.ok ())` result
means the driver filled it.  A `none` outcome marks an exhausted status
stream (the source would still be polling). -/
def Camera.capture (cam : Camera) (drv : ExposureDriver) (image_size : Int) :
    Option (Except CamErr Unit) × List DriverCall :=
  match cam.check_camera_ready drv.statuses with
  | (none, t) => (none, t)
  | (some (.error e, _), t) => (some (.error e), t)
  | (some (.ok (), ss1), t0) =>
      match drv.startExposure with
      | .error e =>
          (some (.error (.cameraException "failed to start exposure"
              cam.camera_index e)),
            t0 ++ [.startExposure false])
      | .ok () =>
          match cam.wait_for_status_change ExpStatus.idle ss1 with
          | (none, t) => (none, t0 ++ [.startExposure false] ++ t)
          | (some (.error e, _), t) =>
              (some (.error e), t0 ++ [.startExposure false] ++ t)
          | (some (.ok _, ss2), t1) =>
              match cam.wait_for_status_change ExpStatus.working ss2 with
              | (none, t) =>
                  (none, t0 ++ [.startExposure false] ++ t1 ++ t)
              | (some (.error e, _), t) =>
                  (some (.error e),
                    t0 ++ [.startExposure false] ++ t1 ++ t)
              | (some (.ok new_status, _), t2) =>
                  if new_status = ExpStatus.failed then
                    (some (.error (.runtimeError "failed to get exposure")),
                      t0 ++ [.startExposure false] ++ t1 ++ t2)
                  else
                    match drv.getDataAfterExp with
                    | .error e =>
                        (some (.error (.cameraException
                            "failed to read image after capture"
                            cam.camera_index e)),
                          t0 ++ [.startExposure false] ++ t1 ++ t2 ++
                            [.getDataAfterExp image_size])
                    | .ok () =>
                        (some (.ok ()),
                          t0 ++ [.startExposure false] ++ t1 ++ t2 ++
                            [.getDataAfterExp image_size])

/-- The name streamed by the `switch (error_code)` of the
`CameraException` constructor (camera_exception.cpp); note the source's
`ASI_ERROR_ID` text for `ASI_ERROR_INVALID_ID`. -/
def AsiError.whatName : AsiError → String
  | .invalidIndex => "ASI_ERROR_INVALID_INDEX"
  | .invalidId => "ASI_ERROR_ID"
  | .invalidControlType => "ASI_ERROR_INVALID_CONTROL_TYPE"
  | .cameraClosed => "ASI_ERROR_CAMERA_CLOSED"
  | .cameraRemoved => "ASI_ERROR_CAMERA_REMOVED"
  | .invalidPath => "ASI_ERROR_INVALID_PATH"
  | .invalidFileformat => "ASI_ERROR_INVALID_FILEFORMAT"
  | .invalidSize => "ASI_ERROR_INVALID_SIZE"
  | .invalidImgtype => "ASI_ERROR_INVALID_IMGTYPE"
  | .outofBoundary => "ASI_ERROR_OUTOF_BOUNDARY"
  | .timeout => "ASI_ERROR_TIMEOUT"
  | .invalidSequence => "ASI_ERROR_INVALID_SEQUENCE"
  | .bufferTooSmall => "ASI_ERROR_BUFFER_TOO_SMALL"
  | .videoModeActive => "ASI_ERROR_VIDEO_MODE_ACTIVE"
  | .exposureInProgress => "ASI_ERROR_EXPOSURE_IN_PROGRESS"
  | .generalError => "ASI_ERROR_GENERAL_ERROR"

/-- The string stored in `error_message_` by
`CameraException::CameraException(error_message, camera_index, error_code)`
with `udev = false` (camera_exception.cpp) and returned by `what()`.  The
source streams the member `error_message_` — still empty at that point —
rather than the `error_message` parameter; `member_error_message` makes
that still-empty member explicit. -/
def cameraExceptionWhat (error_message : String) (camera_index : Int)
    (error_code : AsiError) : String :=
  let member_error_message : String := ""
  let _ := error_message
  "ASI Camera: " ++ "(camera index: " ++ toString camera_index ++ ") " ++
    member_error_message ++ " " ++ "(error code: " ++
    toString error_code.code ++ ": " ++ error_code.whatName ++ ")"

/-- `true` when `pat` occurs as a contiguous run inside `hay`
(character-list infix). -/
def listInfixOf (pat : List Char) : List Char → Bool
  | [] => pat.isEmpty
  | c :: rest => pat.isPrefixOf (c :: rest) || listInfixOf pat rest

/-- `true` when the string `pat` occurs as a substring of `hay`. -/
def strContains (hay pat : String) : Bool :=
  listInfixOf pat.data hay.data

/-! Concrete fixtures used by witnesses and counterexamples. -/

/-- A non-legacy capability catalog matching the spec's example scenario
(`supported_bins = {1,2,3,4}`, all four image types, 4144×2822). -/
def benchInfo : CameraInfo :=
  { name := "ZWO ASI2600MM Pro"
    camera_id := 0
    max_height := 2822
    max_width := 4144
    is_color := false
    bayer := BayerPattern.none
    supported_bins := [1, 2, 3, 4]
    supported_image_types := [.raw8, .rgb24, .raw16, .y8]
    pixel_size_um := 3.76
    mechanical_shutter := false
    st4_port := false
    has_cooler := false
    is_usb3_host := false
    is_usb3 := true
    elec_per_adu := 0.8
    bit_depth := 16
    is_trigger := false }

/-- A legacy (exact-name) catalog: `name = "ASI120"`, not USB3. -/
def asi120Info : CameraInfo :=
  { benchInfo with
    name := "ASI120"
    max_height := 960
    max_width := 1280
    supported_bins := [1, 2]
    supported_image_types := [.raw8, .y8]
    is_usb3 := false }

/-- A catalog whose name merely begins with the legacy identifier. -/
def asi120mmInfo : CameraInfo := { asi120Info with name := "ASI120MM" }

/-- ROI with a width that is not a multiple of 8 (the spec's example
rejection value 4145). -/
def roiBadWidth : ROI :=
  { start_x := 0, start_y := 0, width := 4145, height := 2822, bins := 1,
    type := ImageType.raw8 }

/-- A small ROI passing every check except (possibly) the legacy area
constraint: 8 × 2 = 16 is not a multiple of 1024. -/
def roiSmall : ROI :=
  { start_x := 0, start_y := 0, width := 8, height := 2, bins := 1,
    type := ImageType.raw8 }

/-- An 8 × 6 ROI: area 48 is not a multiple of 1024. -/
def roi8x6 : ROI :=
  { start_x := 0, start_y := 0, width := 8, height := 6, bins := 1,
    type := ImageType.raw8 }

/-- A read-only control descriptor (temperature-style): writable = false. -/
def gainCaps : ControlCaps :=
  { Name := "Gain", MaxValue := 600, MinValue := 0, DefaultValue := 210,
    IsAutoSupported := true, IsWritable := false, ControlType := 0 }

/-- A control descriptor that does not advertise auto-capability. -/
def gammaCaps : ControlCaps :=
  { Name := "Gamma", MaxValue := 100, MinValue := 0, DefaultValue := 50,
    IsAutoSupported := false, IsWritable := true, ControlType := 2 }

/-- An auto-capable, writable control descriptor. -/
def exposureCaps : ControlCaps :=
  { Name := "Exposure", MaxValue := 2000000000, MinValue := 32,
    DefaultValue := 10000, IsAutoSupported := true, IsWritable := true,
    ControlType := 1 }

/-- A writable descriptor whose SDK default value is 50. -/
def gainCaps50 : ControlCaps :=
  { Name := "Gain", MaxValue := 600, MinValue := 0, DefaultValue := 50,
    IsAutoSupported := true, IsWritable := true, ControlType := 0 }

/-- Camera session with no controls (ROI/capture fixtures). -/
def camBench : Camera :=
  { camera_info := benchInfo, camera_index := 0, controls := [] }

/-- Camera session whose registry holds the read-only `"Gain"`. -/
def camGain : Camera :=
  { camera_info := benchInfo, camera_index := 0,
    controls := [("Gain", gainCaps)] }

/-- Camera session whose registry holds the non-auto `"Gamma"`. -/
def camGamma : Camera :=
  { camera_info := benchInfo, camera_index := 0,
    controls := [("Gamma", gammaCaps)] }

/-- Camera session whose registry holds the auto-capable `"Exposure"`. -/
def camExposure : Camera :=
  { camera_info := benchInfo, camera_index := 0,
    controls := [("Exposure", exposureCaps)] }

/-- Camera session whose registry holds `"Gain"` with SDK default 50. -/
def camGain50 : Camera :=
  { camera_info := benchInfo, camera_index := 0,
    controls := [("Gain", gainCaps50)] }

/-- A driver accepting every control read (reporting value 100, auto off)
and every control write. -/
def okControlDriver : ControlDriver :=
  { getControlValue := fun _ => .ok (100, false)
    setControlValue := fun _ _ _ => .ok () }

/-- A driver reporting value 123 (auto off) on reads and accepting writes. -/
def drvGain123 : ControlDriver :=
  { getControlValue := fun _ => .ok (123, false)
    setControlValue := fun _ _ _ => .ok () }

/-- A driver accepting both ROI writes. -/
def okRoiDriver : RoiDriver :=
  { setROIFormat := fun _ _ _ _ => .ok ()
    setStartPos := fun _ _ => .ok () }

/-- An exposure driver whose device is still `Working` when polled. -/
def busyExposureDriver : ExposureDriver :=
  { statuses := [.ok ExpStatus.working]
    startExposure := .ok ()
    getDataAfterExp := .ok () }

/-- An exposure driver walking Idle → Working → Success and accepting
start-exposure and data retrieval. -/
def goodExposureDriver : ExposureDriver :=
  { statuses := [.ok ExpStatus.idle, .ok ExpStatus.working,
      .ok ExpStatus.success]
    startExposure := .ok ()
    getDataAfterExp := .ok () }

/-- The vendor property record of a small mono camera, used to exercise
`get_camera_info`. -/
def rawInfoEx : AsiCameraInfo :=
  { Name := "ZWO ASI120MM Mini"
    CameraID := 0
    MaxHeight := 960
    MaxWidth := 1280
    IsColorCam := false
    BayerPattern := AsiBayer.RG
    SupportedBins := [1, 2, 0, 0]
    SupportedVideoFormat := [.raw8, .y8, .END]
    PixelSize := 3.75
    MechanicalShutter := false
    ST4Port := true
    IsCoolerCam := false
    IsUSB3Host := false
    IsUSB3Camera := false
    ElecPerADU := 2.0
    BitDepth := 12
    IsTriggerCam := false }

/-! Theorems. -/

/-- C2: `ROI::valid` checks, in this order with short-circuit (first
violation wins): width % 8, then height % 2, then the legacy area
constraint, then bin membership, then image-type membership; in particular
any ROI whose width is not a multiple of 8 is rejected with the
width-modulo reason regardless of all other fields. -/
theorem roi_valid_check_order (roi : ROI) (info : CameraInfo) :
    (roi.width % 8 ≠ 0 →
      roi.valid info = .error (.widthNotMultipleOf8 roi.width)) ∧
    (roi.width % 8 = 0 → roi.height % 2 ≠ 0 →
      roi.valid info = .error (.heightNotMultipleOf2 roi.height)) ∧
    (roi.width % 8 = 0 → roi.height % 2 = 0 →
      (info.name = "ASI120" ∧ info.is_usb3 = false ∧
        roi.width * roi.height % 1024 ≠ 0) →
      roi.valid info =
        .error (.areaNotMultipleOf1024 roi.width roi.height "ASI120")) ∧
    (roi.width % 8 = 0 → roi.height % 2 = 0 →
      ¬(info.name = "ASI120" ∧ info.is_usb3 = false ∧
        roi.width * roi.height % 1024 ≠ 0) →
      roi.bins ∉ info.supported_bins →
      roi.valid info = .error (.unsupportedBin roi.bins)) ∧
    (roi.width % 8 = 0 → roi.height % 2 = 0 →
      ¬(info.name = "ASI120" ∧ info.is_usb3 = false ∧
        roi.width * roi.height % 1024 ≠ 0) →
      roi.bins ∈ info.supported_bins →
      roi.type ∉ info.supported_image_types →
      roi.valid info = .error (.unsupportedImageType roi.type)) ∧
    (roi.width % 8 = 0 → roi.height % 2 = 0 →
      ¬(info.name = "ASI120" ∧ info.is_usb3 = false ∧
        roi.width * roi.height % 1024 ≠ 0) →
      roi.bins ∈ info.supported_bins →
      roi.type ∈ info.supported_image_types →
      roi.valid info = .ok ()) := by
  refine ⟨?_, ?_, ?_, ?_, ?_, ?_⟩ <;> intros <;>
    simp_all [ROI.valid]

/-- Witness for `roi_valid_check_order`: the spec's example rejection, a
4145-wide ROI refused with the width-modulo reason. -/
theorem roi_valid_check_order_witness :
    roiBadWidth.valid benchInfo =
      .error (.widthNotMultipleOf8 4145) :=
  (roi_valid_check_order roiBadWidth benchInfo).1 (by decide)

/-- C6 counterexample: a catalog whose model name `"ASI120MM"` begins with
the legacy identifier `"ASI120"` (and is not USB3), and an ROI of area
16 — not a multiple of 1024 — which `ROI::valid` nonetheless accepts,
because the source compares the name with `==`, not with a prefix test. -/
theorem roi_valid_legacy_prefix_refuted :
    ("ASI120".data.isPrefixOf "ASI120MM".data = true) ∧
    asi120mmInfo.name = "ASI120MM" ∧
    asi120mmInfo.is_usb3 = false ∧
    roiSmall.width * roiSmall.height % 1024 ≠ 0 ∧
    roiSmall.valid asi120mmInfo = .ok () := by
  refine ⟨rfl, rfl, rfl, by decide, rfl⟩

/-- C6 amended: the legacy area constraint applies exactly when the model
name **equals** `"ASI120"` and the device is not USB3; when it applies and
the earlier width/height checks pass, an area that is not a multiple of
1024 is rejected with the area reason; any other name (prefix or not), or
a USB3 device, can never produce the area rejection. -/
theorem roi_valid_legacy_exact_match (roi : ROI) (info : CameraInfo) :
    (info.name = "ASI120" → info.is_usb3 = false →
      roi.width % 8 = 0 → roi.height % 2 = 0 →
      roi.width * roi.height % 1024 ≠ 0 →
      roi.valid info =
        .error (.areaNotMultipleOf1024 roi.width roi.height "ASI120")) ∧
    ((info.name ≠ "ASI120" ∨ info.is_usb3 = true) →
      ∀ w h s, roi.valid info ≠ .error (.areaNotMultipleOf1024 w h s)) := by
  constructor
  · intro hname husb hw hh harea
    simp_all [ROI.valid]
  · intro hor w h s
    unfold ROI.valid
    split
    · simp
    · split
      · simp
      · split
        · rcases hor with hor | hor <;> simp_all
        · split
          · simp
          · split
            · simp
            · simp

/-- Witness for `roi_valid_legacy_exact_match`: on the exact-name catalog,
an 8 × 6 ROI (area 48) is rejected with the area reason. -/
theorem roi_valid_legacy_exact_match_witness :
    roi8x6.valid asi120Info =
      .error (.areaNotMultipleOf1024 8 6 "ASI120") :=
  (roi_valid_legacy_exact_match roi8x6 asi120Info).1 rfl rfl (by decide)
    (by decide) (by decide)

/-- C1 (code evaluated at the failing input): `"Gain"` is present in the
registry with `IsWritable = false`, yet `set_control` issues a driver read
(`ASIGetControlValue`) followed unconditionally by the driver write
(`ASISetControlValue`) and reports success — the not-writable variant of
`ControllableException` is never raised. -/
theorem set_control_ignores_not_writable :
    gainCaps.IsWritable = false ∧
    camGain.set_control okControlDriver 0 "Gain" 5 =
      (.ok (), [.getControlValue 0, .setControlValue 0 5 false]) :=
  ⟨rfl, rfl⟩

/-- C3: `Camera::set_roi` runs the validator before any driver write — on
a validation failure the call trace is empty — and on success forwards
width/height/bins/type and then the start position as two sequential,
independently failable driver calls, in that order. -/
theorem set_roi_validator_gates_writes (cam : Camera) (drv : RoiDriver)
    (roi : ROI) :
    (∀ e, roi.valid cam.camera_info = .error e →
      cam.set_roi drv roi = (.error (.roiException e), [])) ∧
    (roi.valid cam.camera_info = .ok () →
      (∀ e,
        drv.setROIFormat roi.width roi.height roi.bins roi.type = .error e →
        cam.set_roi drv roi =
          (.error (.cameraException "failed to set the ROI" cam.camera_index
              e),
            [.setROIFormat roi.width roi.height roi.bins roi.type])) ∧
      (drv.setROIFormat roi.width roi.height roi.bins roi.type = .ok () →
        (∀ e, drv.setStartPos roi.start_x roi.start_y = .error e →
          cam.set_roi drv roi =
            (.error (.cameraException
                "failed to set the ROI starting position" cam.camera_index
                e),
              [.setROIFormat roi.width roi.height roi.bins roi.type,
               .setStartPos roi.start_x roi.start_y])) ∧
        (drv.setStartPos roi.start_x roi.start_y = .ok () →
          cam.set_roi drv roi =
            (.ok (),
              [.setROIFormat roi.width roi.height roi.bins roi.type,
               .setStartPos roi.start_x roi.start_y])))) := by
  refine ⟨?_, fun hv => ⟨?_, fun hf => ⟨?_, fun hp => ?_⟩⟩⟩
  · intro e hv
    simp [Camera.set_roi, hv]
  · intro e hf
    simp [Camera.set_roi, hf, *]
  · intro e hp
    simp [Camera.set_roi, hv, hf, hp]
  · simp [Camera.set_roi, hv, hf, hp]

/-- Witness for `set_roi_validator_gates_writes`: setting the 4145-wide ROI
fails with the width-modulo reason and an empty driver-call trace. -/
theorem set_roi_validator_gates_writes_witness :
    camBench.set_roi okRoiDriver roiBadWidth =
      (.error (.roiException (.widthNotMultipleOf8 4145)), []) :=
  (set_roi_validator_gates_writes camBench okRoiDriver roiBadWidth).1
    (.widthNotMultipleOf8 4145) rfl

/-- C7 counterexample: `"Gamma"` does not advertise auto-capability and
`set_auto` does fail with the auto-not-supported variant, but the driver
has already been contacted: the call trace holds the `ASIGetControlValue`
round trip, refuting "performs no driver call". -/
theorem set_auto_unsupported_still_polls :
    gammaCaps.IsAutoSupported = false ∧
    camGamma.set_auto okControlDriver 0 "Gamma" =
      (.error (.controllableException "Gamma" false false true),
        [.getControlValue 2]) ∧
    (camGamma.set_auto okControlDriver 0 "Gamma").2 ≠ [] :=
  ⟨rfl, rfl, by decide⟩

/-- C7 amended: with the control present and the driver read succeeding,
`set_auto` on a non-auto-capable controllable fails with the
auto-not-supported error after exactly one driver **read** and no driver
write; on an auto-capable controllable it writes the just-read (last-known)
value back with the auto flag set. -/
theorem set_auto_checks_descriptor (cam : Camera) (drv : ControlDriver)
    (junk : Int) (control : String) (caps : ControlCaps) (v : Int)
    (a : Bool) :
    cam.controls.lookup control = some caps →
    drv.getControlValue caps.ControlType = .ok (v, a) →
    ((caps.IsAutoSupported = false →
      cam.set_auto drv junk control =
        (.error (.controllableException control false false true),
          [.getControlValue caps.ControlType])) ∧
     (caps.IsAutoSupported = true →
      drv.setControlValue caps.ControlType v true = .ok () →
      cam.set_auto drv junk control =
        (.ok (),
          [.getControlValue caps.ControlType,
           .setControlValue caps.ControlType v true]))) := by
  intro hl hg
  constructor
  · intro hns
    simp [Camera.set_auto, Camera.get_control_caps, Camera.get_controllable,
      hl, hg, hns]
  · intro hs hw
    simp [Camera.set_auto, Camera.get_control_caps, Camera.get_controllable,
      hl, hg, hs, hw]

/-- Witness for `set_auto_checks_descriptor`: the auto-capable
`"Exposure"` control is written back with its just-read value 100 and the
auto flag on. -/
theorem set_auto_checks_descriptor_witness :
    camExposure.set_auto okControlDriver 0 "Exposure" =
      (.ok (), [.getControlValue 1, .setControlValue 1 100 true]) :=
  (set_auto_checks_descriptor camExposure okControlDriver 0 "Exposure"
      exposureCaps 100 false rfl rfl).2 rfl rfl

/-- C4: `capture` polls the driver status exactly once first; when that
status is not `Idle` the call fails immediately with the busy
`runtime_error`, and the call trace is that single status poll — no
start-exposure, no queueing, no further waiting. -/
theorem capture_busy_fails_before_start (cam : Camera)
    (drv : ExposureDriver) (image_size : Int) (st : ExpStatus)
    (rest : List (Except AsiError ExpStatus)) :
    drv.statuses = .ok st :: rest → st ≠ ExpStatus.idle →
    cam.capture drv image_size =
      (some (.error (.runtimeError "could not take a picture: camera busy")),
        [.getExpStatus]) := by
  intro hs hne
  simp [Camera.capture, Camera.check_camera_ready, hs, hne]

/-- Witness for `capture_busy_fails_before_start`: a device still `Working`
when `capture` is called. -/
theorem capture_busy_fails_before_start_witness :
    camBench.capture busyExposureDriver 100 =
      (some (.error (.runtimeError "could not take a picture: camera busy")),
        [.getExpStatus]) :=
  capture_busy_fails_before_start camBench busyExposureDriver 100
    ExpStatus.working [] rfl (by decide)

/-- C5: once polling leaves `Working` (status stream
Idle, Working, then a terminal `s3 ≠ Working`): a `Failed` terminal status
raises the exposure-failure `runtime_error` with no data-retrieval call in
the trace; any other terminal status issues `ASIGetDataAfterExp` with the
caller's expected byte size, a retrieval failure surfacing as a
`CameraException` and success returning with the buffer filled. -/
theorem capture_terminal_status_branch (cam : Camera)
    (drv : ExposureDriver) (image_size : Int) (s3 : ExpStatus)
    (rest : List (Except AsiError ExpStatus)) :
    drv.statuses =
      .ok ExpStatus.idle :: .ok ExpStatus.working :: .ok s3 :: rest →
    drv.startExposure = .ok () →
    s3 ≠ ExpStatus.working →
    ((s3 = ExpStatus.failed →
      cam.capture drv image_size =
        (some (.error (.runtimeError "failed to get exposure")),
          [.getExpStatus, .startExposure false, .getExpStatus,
           .getExpStatus])) ∧
     (s3 ≠ ExpStatus.failed →
      (drv.getDataAfterExp = .ok () →
        cam.capture drv image_size =
          (some (.ok ()),
            [.getExpStatus, .startExposure false, .getExpStatus,
             .getExpStatus, .getDataAfterExp image_size])) ∧
      (∀ e, drv.getDataAfterExp = .error e →
        cam.capture drv image_size =
          (some (.error (.cameraException
              "failed to read image after capture" cam.camera_index e)),
            [.getExpStatus, .startExposure false, .getExpStatus,
             .getExpStatus, .getDataAfterExp image_size])))) := by
  intro hs hstart hnw
  refine ⟨?_, fun hnf => ⟨?_, ?_⟩⟩
  · intro hf
    simp [Camera.capture, Camera.check_camera_ready,
      Camera.wait_for_status_change, hs, hstart, hnw, hf]
  · intro hd
    simp [Camera.capture, Camera.check_camera_ready,
      Camera.wait_for_status_change, hs, hstart, hnw, hnf, hd]
  · intro e hd
    simp [Camera.capture, Camera.check_camera_ready,
      Camera.wait_for_status_change, hs, hstart, hnw, hnf, hd]

/-- Witness for `capture_terminal_status_branch`: an
Idle → Working → Success run retrieves the data and succeeds. -/
theorem capture_terminal_status_branch_witness :
    camBench.capture goodExposureDriver 100 =
      (some (.ok ()),
        [.getExpStatus, .startExposure false, .getExpStatus, .getExpStatus,
         .getDataAfterExp 100]) :=
  ((capture_terminal_status_branch camBench goodExposureDriver 100
      ExpStatus.success [] rfl rfl (by decide)).2 (by decide)).1 rfl

/-- C8 (code evaluated at the failing input): the descriptor's SDK default
value is 50, yet the `Controllable` built by `get_controllable` carries
whatever indeterminate content the never-assigned `default_value` member
happened to hold (here 0), and the immediate bulk re-read via
`get_controls` carries a fresh indeterminate value (here 7): the min/max,
writable/auto flags and the just-observed value 123 round-trip identically,
but `default_value` is neither the descriptor's 50 nor stable across the
round trip. -/
theorem controllable_default_value_not_roundtripped :
    gainCaps50.DefaultValue = 50 ∧
    (camGain50.get_controllable drvGain123 0 gainCaps50).1 =
      .ok { name := "Gain", min_value := 0, max_value := 600,
            default_value := 0, value := 123, is_writable := true,
            is_auto := false, supports_auto := true } ∧
    (camGain50.get_controls drvGain123 7).1 =
      .ok [("Gain",
        { name := "Gain", min_value := 0, max_value := 600,
          default_value := 7, value := 123, is_writable := true,
          is_auto := false, supports_auto := true })] :=
  ⟨rfl, rfl, rfl⟩

/-- C9 (code evaluated at the failing input): the `CameraException` built
at the driver-rejection site of `set_roi` with message
"failed to set the ROI" surfaces a `what()` string that carries the camera
index and the driver error code but **not** that message — the constructor
streams the still-empty member instead of its message parameter. -/
theorem camera_exception_drops_message :
    cameraExceptionWhat "failed to set the ROI" 0 AsiError.invalidSize =
      "ASI Camera: (camera index: 0)  (error code: 8: ASI_ERROR_INVALID_SIZE)" ∧
    strContains
      (cameraExceptionWhat "failed to set the ROI" 0 AsiError.invalidSize)
      "failed to set the ROI" = false :=
  ⟨rfl, by decide⟩

/-- C10: every capability catalog produced by `get_camera_info` has its
color flag equal to its cooler flag — both are populated from the driver's
`IsCoolerCam` field. -/
theorem camera_info_color_eq_cooler (camera_index : Int)
    (property : Except AsiError AsiCameraInfo) (info : CameraInfo) :
    get_camera_info camera_index property = .ok info →
    info.is_color = info.has_cooler := by
  intro h
  cases property with
  | error e => simp [get_camera_info] at h
  | ok raw =>
      simp only [get_camera_info, Except.ok.injEq] at h
      subst h
      rfl

/-- Witness for `camera_info_color_eq_cooler`: discovery over a concrete
vendor property record. -/
theorem camera_info_color_eq_cooler_witness :
    ∃ info, get_camera_info 0 (.ok rawInfoEx) = .ok info ∧
      info.is_color = info.has_cooler :=
  ⟨_, rfl, camera_info_color_eq_cooler 0 (.ok rawInfoEx) _ rfl⟩

end ZwoAsi
